import Mathlib

/-!
Verification of the `agp-test` repository: three command-line utilities
(`bin2tif/bin2tif.py`, `metadata_cleaner/metadata_cleaner.py`,
`scripts/fetch_bety_data.py`).  The Python code is shallowly embedded:
Python dict/JSON values become the inductive `JValue`, file loading and
the external library calls (terrautils, pyclowder, terraref) become
fields of an environment structure, and each script's procedure becomes
a total Lean function on those.  Filesystem writes are modelled
declaratively (the path written and the document written are returned as
data).  External calls such as `create_geotiff` and `process_raw` that
only produce the output image and never feed back into the result
envelope are elided from the envelope model.
-/

namespace AgpTest

/-- A Python/JSON value as manipulated by the scripts: `null` stands for
Python `None`, objects keep insertion order like Python dicts. -/
inductive JValue where
  | null
  | bool (b : Bool)
  | num  (n : Int)
  | str  (s : String)
  | arr  (elems : List JValue)
  | obj  (members : List (String × JValue))
deriving Inhabited

namespace JValue

/-- Dict lookup: `d[k]` / `k in d` support.  Non-objects have no keys. -/
def lookup : JValue → String → Option JValue
  | .obj ms, k => (ms.find? (fun m => m.1 = k)).map (fun m => m.2)
  | _, _ => none

/-- Python `k in d`. -/
def hasKey (j : JValue) (k : String) : Bool :=
  (j.lookup k).isSome

/-- Python truthiness (`if not x`): `None`, `False`, `0`, `""`, `[]` and
`{}` are falsy, everything else truthy. -/
def truthy : JValue → Bool
  | .null => false
  | .bool b => b
  | .num n => n != 0
  | .str s => s != ""
  | .arr es => !es.isEmpty
  | .obj ms => !ms.isEmpty

/-- In-place update of one member list entry, appending when absent,
keeping insertion order like a Python dict assignment. -/
def setMembers : List (String × JValue) → String → JValue → List (String × JValue)
  | [], k, v => [(k, v)]
  | m :: ms, k, v => if m.1 = k then (m.1, v) :: ms else m :: setMembers ms k v

/-- Python `d[k] = v` on a dict; identity on non-objects. -/
def set : JValue → String → JValue → JValue
  | .obj ms, k, v => .obj (setMembers ms k v)
  | j, _, _ => j

/-- The keys of an object, in insertion order. -/
def keys : JValue → List String
  | .obj ms => ms.map (fun m => m.1)
  | _ => []

end JValue

/-- Truthiness of an optional command-line string (`argparse` gives
`None` when the optional positional is absent): `not args.date` is true
for `None` and for the empty string. -/
def optStrTruthy : Option String → Bool
  | none => false
  | some s => s != ""

/-! ### os.path helpers used by the scripts -/

/-- `os.path.basename`: the part of the path after the last `/`. -/
def basename (p : String) : String :=
  String.mk ((p.toList.reverse.takeWhile (fun c => c ≠ '/')).reverse)

/-- Index of the last occurrence of `c` in `l`, when present. -/
def lastIdxOf (c : Char) (l : List Char) : Option Nat :=
  (List.range l.length).foldl
    (fun acc i => if l.get? i = some c then some i else acc) none

/-- `os.path.splitext` on a slash-free name (the scripts always apply it
to a `basename`): split at the last dot, unless every character before
that dot is itself a dot (so `.bashrc` keeps its dot in the root). -/
def splitext (p : String) : String × String :=
  let l := p.toList
  match lastIdxOf '.' l with
  | none => (p, "")
  | some i =>
    if (l.take i).any (fun c => c ≠ '.') then
      (String.mk (l.take i), String.mk (l.drop i))
    else (p, "")

/-- Whether a path ends in the separator `/`. -/
def endsWithSlash (a : String) : Bool :=
  a.toList.getLast? = some '/'

/-- `os.path.join a b` for the cases arising here: an absolute `b` wins,
otherwise `b` is appended after a separator when `a` is non-empty and
does not already end in one. -/
def path_join (a b : String) : String :=
  if b.toList.head? = some '/' then b
  else if a = "" then b
  else if endsWithSlash a then a ++ b
  else a ++ "/" ++ b

/-! ### save_result (identical in bin2tif.py and metadata_cleaner.py) -/

/-- The filesystem effect of one `save_result` call: which directory is
ensured to exist (`os.makedirs` when missing), which path is written,
and the JSON document written there. -/
structure SaveEffect where
  ensuredDir : String
  writePath : String
  written : JValue

/-- `save_result(working_space, result)`: stores the result dictionary
as JSON at `<working_space>/output/result.json`, creating the `output`
directory when it does not exist. -/
def save_result (working_space : String) (result : JValue) : SaveEffect :=
  let result_path := path_join working_space "output"
  { ensuredDir := result_path
  , writePath := path_join result_path "result.json"
  , written := result }

/-- The error shape every failure return in bin2tif.py and
metadata_cleaner.py builds: `result['error'] = {'message': msg};
result['code'] = code`. -/
def errResult (msg : String) (code : Int) : JValue :=
  .obj [("error", .obj [("message", .str msg)]), ("code", .num code)]

/-- The integer `code` field of a result envelope, when present. -/
def resultCode (r : JValue) : Option Int :=
  match r.lookup "code" with
  | some (.num n) => some n
  | _ => none

/-- Whether a result envelope carries an error message string at
`result['error']['message']` (the bin2tif / metadata_cleaner shape). -/
def hasErrorMessage (r : JValue) : Bool :=
  match r.lookup "error" with
  | some e =>
    match e.lookup "message" with
    | some (.str _) => true
    | _ => false
  | _ => false

/-! ## bin2tif/bin2tif.py -/

def EXTRACTOR_NAME : String := "stereoTop"

def EXTRCTOR_VERSION : String := "1.0"

/-- `get_metadata_timestamp(metadata)`: looks up the timestamp in the
metadata, falling back to `gantry_variable_metadata.datetime`; returns
Python `None` (here `JValue.null`) when neither is present. -/
def get_metadata_timestamp (metadata : JValue) : JValue :=
  let check_md := match metadata.lookup "content" with
    | some c => c
    | none => metadata
  if !(check_md.hasKey "timestamp") then
    match check_md.lookup "gantry_variable_metadata" with
    | some gv =>
      match gv.lookup "datetime" with
      | some dt => dt
      | none => .null
    | none => .null
  else (check_md.lookup "timestamp").getD .null

/-- External dependencies of bin2tif.py, abstracted: `load_json_file`
maps a metadata path to the loaded JSON (`null` when loading fails);
the two `get_terraref_metadata` variants (with and without the
extractor-name filter) return the extracted metadata (falsy when not
found); `get_season_and_experiment` yields the `updated_experiment`
component of its triple (`none` for Python `None`); the `Sensors`
object contributes its display name and its `sensor` key;
`get_image_shape` and `geojson_to_tuples` return `none` when they (or
the dict accesses feeding them) raise `KeyError`. -/
structure Bin2TifEnv where
  load_json_file : String → JValue
  get_terraref_metadata_named : JValue → String → JValue
  get_terraref_metadata : JValue → JValue
  get_season_and_experiment : JValue → String → JValue → Option JValue
  sensor_display_name : String
  sensor_key : String
  get_image_shape : JValue → String → Option JValue
  geojson_to_tuples : JValue → Option JValue

/-- bin2tif.py's `parse_json`: the `content` sub-document of the loaded
JSON when present, otherwise the whole loaded document. -/
def bin2tif_parse_json (env : Bin2TifEnv) (metadata : String) : JValue :=
  let loaded_json := env.load_json_file metadata
  match loaded_json.lookup "content" with
  | some c => c
  | none => loaded_json

/-- bin2tif.py's `terra_md_full`:
`do_get_terraref_metadata(parse_json, EXTRACTOR_NAME)`. -/
def bin2tif_terra_md_full (env : Bin2TifEnv) (metadata : String) : JValue :=
  env.get_terraref_metadata_named (bin2tif_parse_json env metadata) EXTRACTOR_NAME

/-- bin2tif.py's `timestamp`: `get_metadata_timestamp(terra_md_full)`. -/
def bin2tif_timestamp (env : Bin2TifEnv) (metadata : String) : JValue :=
  get_metadata_timestamp (bin2tif_terra_md_full env metadata)

/-- bin2tif.py's `bin_type`: `'left'` for a `_left.bin` filename,
`'right'` for a `_right.bin` one, Python `None` otherwise. -/
def bin2tif_bin_type (filename : String) : Option String :=
  if filename.endsWith "_left.bin" then some "left"
  else if filename.endsWith "_right.bin" then some "right"
  else none

/-- The `try` block guarding the spatial metadata: `True` exactly when
none of `get_image_shape`, the nested dict accesses
`terra_md_full['spatial_metadata'][bin_type]['bounding_box']` and
`geojson_to_tuples` raises `KeyError`. -/
def bin2tif_spatial_ok (env : Bin2TifEnv) (metadata bt : String) : Bool :=
  (env.get_image_shape (bin2tif_terra_md_full env metadata) bt).isSome &&
  (match ((((bin2tif_terra_md_full env metadata).lookup "spatial_metadata").bind
            (fun sm => sm.lookup bt)).bind
            (fun bb => bb.lookup "bounding_box")) with
   | some bounding_box => (env.geojson_to_tuples bounding_box).isSome
   | none => false)

/-- bin2tif.py's `terra_md_trim` after the three dict assignments
applied to it, in source order: `experiment_metadata` (when the updated
experiment is not `None`), `raw_data_source`, `extractor_version`. -/
def bin2tif_terra_md_trim (env : Bin2TifEnv) (filename metadata : String) : JValue :=
  let t := env.get_terraref_metadata (bin2tif_parse_json env metadata)
  let t := match env.get_season_and_experiment (bin2tif_timestamp env metadata)
                 "stereoTop" (bin2tif_terra_md_full env metadata) with
    | some ue => t.set "experiment_metadata" ue
    | none => t
  let t := t.set "raw_data_source" (.str filename)
  t.set "extractor_version" (.str EXTRCTOR_VERSION)

/-- bin2tif.py's `tiff_filename`: the bin file's basename with its
extension replaced by `.tif`. -/
def bin2tif_tiff_filename (filename : String) : String :=
  (splitext (basename filename)).1 ++ ".tif"

/-- bin2tif.py's `new_md`: the JSON-LD document attached to the
produced geotiff. -/
def bin2tif_new_md (env : Bin2TifEnv) (filename metadata : String) : JValue :=
  .obj
    [ ("@context", .arr [.str "https://clowder.ncsa.illinois.edu/contexts/metadata.jsonld"])
    , ("content", bin2tif_terra_md_trim env filename metadata)
    , ("filename", .str (bin2tif_tiff_filename filename))
    , ("agent", .obj
        [ ("@type", .str "cat:extractor")
        , ("version", .str EXTRCTOR_VERSION)
        , ("name", .str EXTRACTOR_NAME) ]) ]

/-- bin2tif.py's success envelope: the `container` entry plus code 0. -/
def bin2tif_success_result (env : Bin2TifEnv)
    (filename metadata working_space : String) : JValue :=
  .obj
    [ ("container", .arr [.obj
        [ ("name", .str env.sensor_display_name)
        , ("exists", .bool false)
        , ("metadata", .obj
            [ ("replace", .bool true)
            , ("data", bin2tif_new_md env filename metadata) ])
        , ("file", .arr [.obj
            [ ("path", .str (path_join working_space (bin2tif_tiff_filename filename)))
            , ("key", .str env.sensor_key) ]]) ]])
    , ("code", .num 0) ]

/-- `bin2tif(filename, metadata, working_space)`: converts the bin file
to a geotiff, returning the result envelope.  The actual image
production (`process_raw`, `create_geotiff`) does not feed back into
the envelope and is elided. -/
def bin2tif (env : Bin2TifEnv) (filename metadata working_space : String) : JValue :=
  if !(env.load_json_file metadata).truthy then
    errResult ("Unable to load JSON from file '" ++ metadata ++ "'") (-1)
  else if !(bin2tif_terra_md_full env metadata).truthy then
    errResult ("Unable to find " ++ EXTRACTOR_NAME ++ " metadata in JSON file '"
               ++ metadata ++ "'") (-2)
  else if !(bin2tif_timestamp env metadata).truthy then
    errResult ("Unable to find timestamp in JSON file '" ++ filename ++ "'") (-3)
  else
  match bin2tif_bin_type filename with
  | none =>
    errResult ("Bin file must be a left or right file: '" ++ filename ++ "'") (-4)
  | some bt =>
    if bin2tif_spatial_ok env metadata bt then
      bin2tif_success_result env filename metadata working_space
    else
      errResult "Spatial metadata is not properly identified. Unable to continue" (-5)

/-- One whole run of bin2tif.py's `__main__`/`do_work`: the envelope is
saved under the working space, `do_work` returns `None` and `__main__`
never calls `sys.exit`, so the process exit code is 0 whenever no
exception escapes. -/
structure ScriptRun where
  exit_code : Int
  saved : SaveEffect

/-- bin2tif.py `do_work` followed by the implicit process exit. -/
def bin2tif_do_work (env : Bin2TifEnv)
    (bin_file metadata_file working_space : String) : ScriptRun :=
  let result := bin2tif env bin_file metadata_file working_space
  { exit_code := 0
  , saved := save_result working_space result }

/-! ## metadata_cleaner/metadata_cleaner.py -/

/-- List of sensors that cannot be cleaned. -/
def SKIP_SENSORS : List String := ["Full Field"]

/-- External dependencies of metadata_cleaner.py: `load_json_file` maps
a metadata path to the loaded JSON (`null` when loading fails), and
`clean_metadata_lib` is `terrautils.metadata.clean_metadata(md, sensor)`. -/
structure CleanerEnv where
  load_json_file : String → JValue
  clean_metadata_lib : JValue → String → JValue

/-- Outcome of one `clean_metadata` call: the result envelope, plus the
cleaned-metadata file written to the working space when the run reaches
that point (`none` on the skip and error paths, where no file is
opened or written). -/
structure CleanRun where
  result : JValue
  written : Option (String × JValue)

/-- metadata_cleaner.py's envelope on the skip path: code 0 plus an
explanatory message, no file entry. -/
def cleaner_skip_result (sensor : String) : JValue :=
  .obj
    [ ("code", .num 0)
    , ("message", .str ("Sensor '" ++ sensor
        ++ "' does not have metadata that can be cleaned")) ]

/-- metadata_cleaner.py's `md_json` before cleaning: the `content`
sub-document when the loaded document has both an `@context` and a
`content` key (already-cleaned metadata), the whole document
otherwise. -/
def cleaner_md_to_clean (loaded_json : JValue) : JValue :=
  if loaded_json.hasKey "@context" && loaded_json.hasKey "content" then
    (loaded_json.lookup "content").getD loaded_json
  else loaded_json

/-- metadata_cleaner.py's `agent` value: `@type` is `cat:user`, and a
truthy `userid` argument adds a `user_id` entry. -/
def cleaner_agent (userid : Option String) : JValue :=
  match userid with
  | some u =>
    if u != "" then .obj [("@type", .str "cat:user"), ("user_id", .str u)]
    else .obj [("@type", .str "cat:user")]
  | none => .obj [("@type", .str "cat:user")]

/-- metadata_cleaner.py's `format_md`: the JSON-LD document written to
the cleaned-metadata file. -/
def cleaner_format_md (content agent : JValue) : JValue :=
  .obj
    [ ("@context", .arr
        [ .str "https://clowder.ncsa.illinois.edu/contexts/metadata.jsonld"
        , .obj [("@vocab", .str "https://terraref.ncsa.illinois.edu/metadata/uamac#")] ])
    , ("content", content)
    , ("agent", agent) ]

/-- metadata_cleaner.py's `new_path`: the input file's basename with
`_cleaned` inserted before the extension, joined onto the working
space. -/
def cleaner_new_path (filename working_space : String) : String :=
  let filename_parts := splitext (basename filename)
  path_join working_space (filename_parts.1 ++ "_cleaned" ++ filename_parts.2)

/-- metadata_cleaner.py's success envelope: the file entry plus
code 0. -/
def cleaner_success_result (sensor new_path : String) : JValue :=
  .obj
    [ ("file", .arr [.obj [("path", .str new_path), ("key", .str sensor)]])
    , ("code", .num 0) ]

/-- `clean_metadata(sensor, filename, working_space, userid)`: cleans
the metadata from the file passed in and adds context. -/
def clean_metadata (env : CleanerEnv)
    (sensor filename working_space : String) (userid : Option String) : CleanRun :=
  if SKIP_SENSORS.contains sensor then
    { result := cleaner_skip_result sensor
    , written := none }
  else if !(env.load_json_file filename).truthy then
    { result := errResult ("Unable to load JSON from specified file: '"
                           ++ filename ++ "'") (-1)
    , written := none }
  else
    let md_json := env.clean_metadata_lib
      (cleaner_md_to_clean (env.load_json_file filename)) sensor
    let new_path := cleaner_new_path filename working_space
    { result := cleaner_success_result sensor new_path
    , written := some (new_path, cleaner_format_md md_json (cleaner_agent userid)) }

/-- metadata_cleaner.py `do_work` followed by the implicit process
exit: like bin2tif.py it saves the envelope and exits 0 because
`do_work` returns `None` and `__main__` never calls `sys.exit`. -/
def cleaner_do_work (env : CleanerEnv)
    (sensor filename working_space : String) (userid : Option String) : ScriptRun :=
  let run := clean_metadata env sensor filename working_space userid
  { exit_code := 0
  , saved := save_result working_space run.result }

/-! ## scripts/fetch_bety_data.py -/

/-- External dependencies of fetch_bety_data.py: the four
`terrautils.betydb` fetchers, abstracted to the data they return (the
`--options` pairs they are forwarded only feed these calls and are
elided). -/
structure FetchEnv where
  get_cultivars : JValue
  get_experiments : JValue
  get_sites : Option String → JValue
  get_traits : JValue

/-- One run of fetch_bety_data.py's `do_work`: the internal result
dict, the integer `do_work` returns (which `__main__` passes to
`sys.exit`), and whether a `type_map` fetch was actually executed. -/
structure FetchRun where
  result : JValue
  ret_code : Int
  fetched : Bool
  printed : Option JValue

/-- The keys of fetch_bety_data.py's `type_map` dispatch table. -/
def fetch_type_map_keys : List String :=
  ["cultivars", "experiments", "sites", "traits"]

/-- fetch_bety_data.py `do_work(parser)` on parsed arguments
`datatype` and optional `date`. -/
def fetch_do_work (env : FetchEnv)
    (datatype : String) (date : Option String) : FetchRun :=
  if datatype = "sites" && !optStrTruthy date then
    { result := .obj
        [ ("error", .str "A date must be specified with the datatype parameter of \"sites\"")
        , ("code", .num (-1)) ]
    , ret_code := -1
    , fetched := false
    , printed := none }
  else if fetch_type_map_keys.contains datatype then
    let data :=
      if datatype = "cultivars" then env.get_cultivars
      else if datatype = "experiments" then env.get_experiments
      else if datatype = "sites" then env.get_sites date
      else env.get_traits
    { result := .obj []
    , ret_code := 0
    , fetched := true
    , printed := some data }
  else
    { result := .obj
        [ ("error", .str ("Invalid datatype parameter specifed: '" ++ datatype
            ++ "'. Stopping processing"))
        , ("code", .num (-2)) ]
    , ret_code := -2
    , fetched := false
    , printed := none }

/-- fetch_bety_data.py `__main__`: `sys.exit(RETURN_CODE)` with the
value `do_work` returned (`result['code'] if 'code' in result else 0`). -/
def fetch_main_exit_code (env : FetchEnv)
    (datatype : String) (date : Option String) : Int :=
  (fetch_do_work env datatype date).ret_code

/-! ## Concrete environments for witnesses and counterexamples -/

/-- A stereoTop metadata document carrying a timestamp and left/right
spatial bounding boxes. -/
def sampleTerraMd : JValue := .obj
  [ ("timestamp", .str "2018-05-01T00:00:00-05:00")
  , ("spatial_metadata", .obj
      [ ("left", .obj [("bounding_box", .str "geojson-left")])
      , ("right", .obj [("bounding_box", .str "geojson-right")]) ]) ]

/-- A bin2tif environment where every external call succeeds. -/
def envOk : Bin2TifEnv :=
  { load_json_file := fun _ => sampleTerraMd
  , get_terraref_metadata_named := fun j _ => j
  , get_terraref_metadata := fun j => j
  , get_season_and_experiment := fun _ _ _ => none
  , sensor_display_name := "RGB GeoTIFFs"
  , sensor_key := "rgb_geotiff"
  , get_image_shape := fun _ _ => some (.arr [.num 3296, .num 2472])
  , geojson_to_tuples := fun _ => some (.arr []) }

/-- A bin2tif environment where loading the metadata JSON fails. -/
def envNoJson : Bin2TifEnv :=
  { load_json_file := fun _ => .null
  , get_terraref_metadata_named := fun _ _ => .null
  , get_terraref_metadata := fun j => j
  , get_season_and_experiment := fun _ _ _ => none
  , sensor_display_name := "RGB GeoTIFFs"
  , sensor_key := "rgb_geotiff"
  , get_image_shape := fun _ _ => none
  , geojson_to_tuples := fun _ => none }

/-- A cleaner environment where loading succeeds and the library
cleaner is the identity. -/
def cenvOk : CleanerEnv :=
  { load_json_file := fun _ => .obj [("gantry_system_variable_metadata", .str "raw")]
  , clean_metadata_lib := fun j _ => j }

/-- A cleaner environment where loading the metadata JSON fails. -/
def cenvNoJson : CleanerEnv :=
  { load_json_file := fun _ => .null
  , clean_metadata_lib := fun j _ => j }

/-- A fetch environment returning empty datasets. -/
def fenvEmpty : FetchEnv :=
  { get_cultivars := .arr []
  , get_experiments := .arr []
  , get_sites := fun _ => .arr []
  , get_traits := .arr [] }

/-! ## Helper lemmas -/

theorem resultCode_errResult (msg : String) (c : Int) :
    resultCode (errResult msg c) = some c := rfl

theorem hasErrorMessage_errResult (msg : String) (c : Int) :
    hasErrorMessage (errResult msg c) = true := rfl

theorem keys_errResult (msg : String) (c : Int) :
    (errResult msg c).keys = ["error", "code"] := rfl

theorem append_ne_empty (a b : String) (h : b.data ≠ []) : a ++ b ≠ "" := by
  intro hc
  have hd : a.data ++ b.data = [] := by
    have := congrArg String.data hc
    rwa [String.data_append] at this
  exact h (List.append_eq_nil.mp hd).2

theorem endsWithSlash_append (a b : String) (h : b.data ≠ []) :
    endsWithSlash (a ++ b) = endsWithSlash b := by
  simp only [endsWithSlash, String.toList, String.data_append,
    List.getLast?_append_of_ne_nil _ h]

theorem path_join_eq (a b : String) (h0 : b.data.head? ≠ some '/')
    (h1 : a ≠ "") (h2 : endsWithSlash a = false) :
    path_join a b = a ++ "/" ++ b := by
  simp [path_join, String.toList, h0, h1, h2]

/-- Both scripts that call `save_result` place the envelope at
`<working_space>/output/result.json`, under the ensured directory
`<working_space>/output`. -/
theorem save_result_paths (ws : String) (r : JValue)
    (h1 : ws ≠ "") (h2 : endsWithSlash ws = false) :
    (save_result ws r).writePath = ws ++ "/output/result.json"
    ∧ (save_result ws r).ensuredDir = ws ++ "/output"
    ∧ (save_result ws r).written = r := by
  have e1 : path_join ws "output" = ws ++ "/output" := by
    rw [path_join_eq ws "output" (by decide) h1 h2, String.append_assoc]
    rfl
  have hne : ws ++ "/output" ≠ "" := append_ne_empty ws "/output" (by decide)
  have hsl : endsWithSlash (ws ++ "/output") = false := by
    rw [endsWithSlash_append ws "/output" (by decide)]
    rfl
  have e2 : path_join (ws ++ "/output") "result.json"
      = ws ++ "/output/result.json" := by
    rw [path_join_eq (ws ++ "/output") "result.json" (by decide) hne hsl,
      String.append_assoc, String.append_assoc]
    rfl
  refine ⟨?_, ?_, rfl⟩
  · show path_join (path_join ws "output") "result.json" = _
    rw [e1, e2]
  · show path_join ws "output" = _
    exact e1

/-- The result-envelope keys either script ever emits. -/
def envelopeKeys : List String := ["code", "error", "message", "container", "file"]

/-- A well-formed result envelope: its keys are drawn from
`envelopeKeys`, its `code` field is present as an integer, and that
code is either 0 (success) or negative and accompanied by an error
message at `error.message`. -/
def envelopeWF (r : JValue) : Prop :=
  (∀ k ∈ r.keys, k ∈ envelopeKeys)
  ∧ ∃ n : Int, resultCode r = some n
      ∧ (n = 0 ∨ (n < 0 ∧ hasErrorMessage r = true))

theorem envelopeWF_errResult (msg : String) (c : Int) (hc : c < 0) :
    envelopeWF (errResult msg c) := by
  refine ⟨?_, c, rfl, Or.inr ⟨hc, rfl⟩⟩
  show ∀ k ∈ ["error", "code"], k ∈ envelopeKeys
  decide

theorem envelopeWF_skip_result (sensor : String) :
    envelopeWF (cleaner_skip_result sensor) := by
  refine ⟨?_, 0, rfl, Or.inl rfl⟩
  show ∀ k ∈ ["code", "message"], k ∈ envelopeKeys
  decide

theorem envelopeWF_cleaner_success (sensor new_path : String) :
    envelopeWF (cleaner_success_result sensor new_path) := by
  refine ⟨?_, 0, rfl, Or.inl rfl⟩
  show ∀ k ∈ ["file", "code"], k ∈ envelopeKeys
  decide

theorem envelopeWF_bin2tif_success (env : Bin2TifEnv) (f m w : String) :
    envelopeWF (bin2tif_success_result env f m w) := by
  refine ⟨?_, 0, rfl, Or.inl rfl⟩
  show ∀ k ∈ ["container", "code"], k ∈ envelopeKeys
  decide

/-- Every envelope `bin2tif` returns is well formed. -/
theorem bin2tif_envelope_wf (env : Bin2TifEnv) (f m w : String) :
    envelopeWF (bin2tif env f m w) := by
  unfold bin2tif
  repeat' split
  all_goals first
    | exact envelopeWF_errResult _ _ (by norm_num)
    | exact envelopeWF_bin2tif_success _ _ _ _

/-- Every envelope `clean_metadata` returns is well formed. -/
theorem cleaner_envelope_wf (env : CleanerEnv)
    (sensor filename working_space : String) (userid : Option String) :
    envelopeWF (clean_metadata env sensor filename working_space userid).result := by
  unfold clean_metadata
  repeat' split
  all_goals first
    | exact envelopeWF_skip_result _
    | exact envelopeWF_errResult _ _ (by norm_num)
    | exact envelopeWF_cleaner_success _ _

/-! ## Claims -/

/-- Claim C3: for every metadata file path from which no JSON can be
loaded (`load_json_file` is falsy), `clean_metadata` (for sensors not
in the skip list) and `bin2tif` each return a result with code -1 and
an error message naming the offending file. -/
theorem missing_json_gives_code_neg_one
    (cenv : CleanerEnv) (env : Bin2TifEnv)
    (sensor filename working_space : String) (userid : Option String)
    (bin_file bin_metadata bin_ws : String)
    (hskip : sensor ∉ SKIP_SENSORS)
    (hload : (cenv.load_json_file filename).truthy = false)
    (hbload : (env.load_json_file bin_metadata).truthy = false) :
    (clean_metadata cenv sensor filename working_space userid).result
      = errResult ("Unable to load JSON from specified file: '" ++ filename ++ "'") (-1)
    ∧ resultCode (clean_metadata cenv sensor filename working_space userid).result
      = some (-1)
    ∧ bin2tif env bin_file bin_metadata bin_ws
      = errResult ("Unable to load JSON from file '" ++ bin_metadata ++ "'") (-1)
    ∧ resultCode (bin2tif env bin_file bin_metadata bin_ws) = some (-1) := by
  have h1 : (clean_metadata cenv sensor filename working_space userid).result
      = errResult ("Unable to load JSON from specified file: '" ++ filename ++ "'") (-1) := by
    simp [clean_metadata, hskip, hload]
  have h2 : bin2tif env bin_file bin_metadata bin_ws
      = errResult ("Unable to load JSON from file '" ++ bin_metadata ++ "'") (-1) := by
    simp [bin2tif, hbload]
  refine ⟨h1, ?_, h2, ?_⟩
  · rw [h1]; rfl
  · rw [h2]; rfl

/-- Concrete run of `missing_json_gives_code_neg_one`: a sensor outside
the skip list and an unloadable metadata file give code -1 in both
scripts. -/
theorem missing_json_gives_code_neg_one_witness :
    "stereoTop" ∉ SKIP_SENSORS
    ∧ (cenvNoJson.load_json_file "md.json").truthy = false
    ∧ (clean_metadata cenvNoJson "stereoTop" "md.json" "ws" none).result
        = errResult ("Unable to load JSON from specified file: '" ++ "md.json" ++ "'") (-1)
    ∧ bin2tif envNoJson "f_left.bin" "md.json" "ws"
        = errResult ("Unable to load JSON from file '" ++ "md.json" ++ "'") (-1) := by
  have h := missing_json_gives_code_neg_one cenvNoJson envNoJson
    "stereoTop" "md.json" "ws" none "f_left.bin" "md.json" "ws" (by decide) rfl rfl
  exact ⟨by decide, rfl, h.1, h.2.2.1⟩

/-- Claim C4: when datatype is `sites` and no (truthy) date argument is
given, the fetch script returns code -1 with an error message and
performs no data fetch. -/
theorem fetch_sites_requires_date
    (env : FetchEnv) (date : Option String)
    (hdate : optStrTruthy date = false) :
    (fetch_do_work env "sites" date).ret_code = -1
    ∧ (fetch_do_work env "sites" date).result.lookup "error"
        = some (.str "A date must be specified with the datatype parameter of \"sites\"")
    ∧ resultCode (fetch_do_work env "sites" date).result = some (-1)
    ∧ (fetch_do_work env "sites" date).fetched = false
    ∧ (fetch_do_work env "sites" date).printed = none := by
  have h : fetch_do_work env "sites" date
      = { result := .obj
            [ ("error", .str "A date must be specified with the datatype parameter of \"sites\"")
            , ("code", .num (-1)) ]
        , ret_code := -1
        , fetched := false
        , printed := none } := by
    simp [fetch_do_work, hdate]
  rw [h]
  exact ⟨rfl, rfl, rfl, rfl, rfl⟩

/-- Concrete run of `fetch_sites_requires_date` at `date = None`. -/
theorem fetch_sites_requires_date_witness :
    optStrTruthy none = false
    ∧ (fetch_do_work fenvEmpty "sites" none).ret_code = -1
    ∧ (fetch_do_work fenvEmpty "sites" none).fetched = false := by
  have h := fetch_sites_requires_date fenvEmpty none rfl
  exact ⟨rfl, h.1, h.2.2.2.1⟩

/-- Claim C8: the skip list is exactly `['Full Field']`, and for a
sensor on it `clean_metadata` returns code 0 with an explanatory
message and no `file` entry, writes nothing, and its outcome does not
depend on the metadata-loading environment or on the file path at all
(so it succeeds even when the metadata file is missing or invalid). -/
theorem skip_sensor_succeeds_without_reading
    (env env2 : CleanerEnv) (sensor f f2 w w2 : String) (u : Option String)
    (hs : sensor ∈ SKIP_SENSORS) :
    SKIP_SENSORS = ["Full Field"]
    ∧ clean_metadata env sensor f w u = clean_metadata env2 sensor f2 w2 u
    ∧ resultCode (clean_metadata env sensor f w u).result = some 0
    ∧ (clean_metadata env sensor f w u).result.lookup "message"
        = some (.str ("Sensor '" ++ sensor ++ "' does not have metadata that can be cleaned"))
    ∧ (clean_metadata env sensor f w u).result.lookup "file" = none
    ∧ (clean_metadata env sensor f w u).written = none := by
  have h : ∀ (e : CleanerEnv) (fn ws : String) (ui : Option String),
      clean_metadata e sensor fn ws ui
        = { result := cleaner_skip_result sensor, written := none } := by
    intro e fn ws ui
    simp [clean_metadata, hs]
  refine ⟨rfl, by rw [h, h], ?_, ?_, ?_, ?_⟩
  · rw [h]; rfl
  · rw [h]; rfl
  · rw [h]; rfl
  · rw [h]

/-- Concrete run of `skip_sensor_succeeds_without_reading`: the
`Full Field` sensor succeeds identically under an environment whose
metadata file cannot even be loaded and under one where it can. -/
theorem skip_sensor_succeeds_without_reading_witness :
    "Full Field" ∈ SKIP_SENSORS
    ∧ clean_metadata cenvNoJson "Full Field" "missing.json" "ws" none
        = clean_metadata cenvOk "Full Field" "other.json" "ws2" none
    ∧ resultCode (clean_metadata cenvNoJson "Full Field" "missing.json" "ws" none).result
        = some 0 := by
  have h := skip_sensor_succeeds_without_reading cenvNoJson cenvOk
    "Full Field" "missing.json" "other.json" "ws" "ws2" none (by decide)
  exact ⟨by decide, h.2.1, h.2.2.1⟩

/-- Claim C2: once the earlier checks pass (the JSON loads, the
stereoTop terraref metadata is present and a timestamp is found, i.e.
the filename check is actually reached), `bin2tif` rejects every
filename that ends in neither `_left.bin` nor `_right.bin` with code
-4 and an error message. -/
theorem bin2tif_rejects_bad_suffix
    (env : Bin2TifEnv) (filename metadata working_space : String)
    (hload : (env.load_json_file metadata).truthy = true)
    (hterra : (bin2tif_terra_md_full env metadata).truthy = true)
    (hts : (bin2tif_timestamp env metadata).truthy = true)
    (hleft : filename.endsWith "_left.bin" = false)
    (hright : filename.endsWith "_right.bin" = false) :
    bin2tif env filename metadata working_space
      = errResult ("Bin file must be a left or right file: '" ++ filename ++ "'") (-4)
    ∧ resultCode (bin2tif env filename metadata working_space) = some (-4)
    ∧ hasErrorMessage (bin2tif env filename metadata working_space) = true := by
  have h : bin2tif env filename metadata working_space
      = errResult ("Bin file must be a left or right file: '" ++ filename ++ "'") (-4) := by
    simp [bin2tif, hload, hterra, hts, bin2tif_bin_type, hleft, hright]
  refine ⟨h, ?_, ?_⟩
  · rw [h]; rfl
  · rw [h]; rfl

/-- Concrete run of `bin2tif_rejects_bad_suffix`: valid metadata but a
filename with the wrong suffix gives code -4. -/
theorem bin2tif_rejects_bad_suffix_witness :
    (envOk.load_json_file "md.json").truthy = true
    ∧ "f.bin".endsWith "_left.bin" = false
    ∧ "f.bin".endsWith "_right.bin" = false
    ∧ bin2tif envOk "f.bin" "md.json" "ws"
        = errResult ("Bin file must be a left or right file: '" ++ "f.bin" ++ "'") (-4) := by
  have h := bin2tif_rejects_bad_suffix envOk "f.bin" "md.json" "ws" rfl rfl rfl rfl rfl
  exact ⟨rfl, rfl, rfl, h.1⟩

/-- Claim C9: bin2tif's error checks run in the fixed order -1
(unloadable JSON), -2 (missing stereoTop terraref metadata), -3
(missing timestamp), -4 (bad filename suffix), -5 (missing spatial
metadata).  For a filename lacking the left/right suffix, the first
failing earlier check determines the code — never -4 — and -4 is
returned exactly when all three earlier checks pass (the spatial
check, which would give -5, is then never reached). -/
theorem bin2tif_check_order
    (env : Bin2TifEnv) (filename metadata working_space : String)
    (hleft : filename.endsWith "_left.bin" = false)
    (hright : filename.endsWith "_right.bin" = false) :
    ((env.load_json_file metadata).truthy = false →
      resultCode (bin2tif env filename metadata working_space) = some (-1))
    ∧ ((env.load_json_file metadata).truthy = true →
        (bin2tif_terra_md_full env metadata).truthy = false →
      resultCode (bin2tif env filename metadata working_space) = some (-2))
    ∧ ((env.load_json_file metadata).truthy = true →
        (bin2tif_terra_md_full env metadata).truthy = true →
        (bin2tif_timestamp env metadata).truthy = false →
      resultCode (bin2tif env filename metadata working_space) = some (-3))
    ∧ ((env.load_json_file metadata).truthy = true →
        (bin2tif_terra_md_full env metadata).truthy = true →
        (bin2tif_timestamp env metadata).truthy = true →
      resultCode (bin2tif env filename metadata working_space) = some (-4))
    ∧ (¬((env.load_json_file metadata).truthy = true
          ∧ (bin2tif_terra_md_full env metadata).truthy = true
          ∧ (bin2tif_timestamp env metadata).truthy = true) →
      resultCode (bin2tif env filename metadata working_space) ≠ some (-4)) := by
  have e1 : (env.load_json_file metadata).truthy = false →
      bin2tif env filename metadata working_space
        = errResult ("Unable to load JSON from file '" ++ metadata ++ "'") (-1) := by
    intro h; simp [bin2tif, h]
  have e2 : (env.load_json_file metadata).truthy = true →
      (bin2tif_terra_md_full env metadata).truthy = false →
      bin2tif env filename metadata working_space
        = errResult ("Unable to find " ++ EXTRACTOR_NAME ++ " metadata in JSON file '"
            ++ metadata ++ "'") (-2) := by
    intro ha hb; simp [bin2tif, ha, hb]
  have e3 : (env.load_json_file metadata).truthy = true →
      (bin2tif_terra_md_full env metadata).truthy = true →
      (bin2tif_timestamp env metadata).truthy = false →
      bin2tif env filename metadata working_space
        = errResult ("Unable to find timestamp in JSON file '" ++ filename ++ "'") (-3) := by
    intro ha hb hc; simp [bin2tif, ha, hb, hc]
  have e4 : (env.load_json_file metadata).truthy = true →
      (bin2tif_terra_md_full env metadata).truthy = true →
      (bin2tif_timestamp env metadata).truthy = true →
      bin2tif env filename metadata working_space
        = errResult ("Bin file must be a left or right file: '" ++ filename ++ "'") (-4) := by
    intro ha hb hc
    simp [bin2tif, ha, hb, hc, bin2tif_bin_type, hleft, hright]
  refine ⟨?_, ?_, ?_, ?_, ?_⟩
  · intro h; rw [e1 h]; rfl
  · intro ha hb; rw [e2 ha hb]; rfl
  · intro ha hb hc; rw [e3 ha hb hc]; rfl
  · intro ha hb hc; rw [e4 ha hb hc]; rfl
  · intro hn
    by_cases ha : (env.load_json_file metadata).truthy = true
    · by_cases hb : (bin2tif_terra_md_full env metadata).truthy = true
      · by_cases hc : (bin2tif_timestamp env metadata).truthy = true
        · exact absurd ⟨ha, hb, hc⟩ hn
        · rw [Bool.not_eq_true] at hc
          rw [e3 ha hb hc, resultCode_errResult]
          decide
      · rw [Bool.not_eq_true] at hb
        rw [e2 ha hb, resultCode_errResult]
        decide
    · rw [Bool.not_eq_true] at ha
      rw [e1 ha, resultCode_errResult]
      decide

/-- Concrete run of `bin2tif_check_order`: a bad-suffix filename with
unloadable metadata still gives code -1, not -4. -/
theorem bin2tif_check_order_witness :
    "f.bin".endsWith "_left.bin" = false
    ∧ (envNoJson.load_json_file "md.json").truthy = false
    ∧ resultCode (bin2tif envNoJson "f.bin" "md.json" "ws") = some (-1) := by
  have h := bin2tif_check_order envNoJson "f.bin" "md.json" "ws" rfl rfl
  exact ⟨rfl, rfl, h.1 rfl⟩

/-- Claim C10: with a loadable metadata file and a non-skipped sensor,
the document handed to the library cleaner (whose output lands under
`content` in the written file) is the loaded document's `content` value
exactly when the loaded document has both an `@context` key and a
`content` key, and the whole loaded document otherwise. -/
theorem cleaner_already_cleaned_detection
    (env : CleanerEnv) (sensor filename working_space : String) (userid : Option String)
    (hskip : sensor ∉ SKIP_SENSORS)
    (hload : (env.load_json_file filename).truthy = true) :
    ((clean_metadata env sensor filename working_space userid).written.map Prod.snd).bind
        (fun d => d.lookup "content")
      = some (env.clean_metadata_lib
          (cleaner_md_to_clean (env.load_json_file filename)) sensor)
    ∧ (((env.load_json_file filename).hasKey "@context"
          && (env.load_json_file filename).hasKey "content") = true →
        cleaner_md_to_clean (env.load_json_file filename)
          = ((env.load_json_file filename).lookup "content").getD (env.load_json_file filename))
    ∧ (((env.load_json_file filename).hasKey "@context"
          && (env.load_json_file filename).hasKey "content") = false →
        cleaner_md_to_clean (env.load_json_file filename) = env.load_json_file filename) := by
  have h : (clean_metadata env sensor filename working_space userid).written
      = some (cleaner_new_path filename working_space,
          cleaner_format_md
            (env.clean_metadata_lib (cleaner_md_to_clean (env.load_json_file filename)) sensor)
            (cleaner_agent userid)) := by
    simp [clean_metadata, hskip, hload]
  refine ⟨?_, ?_, ?_⟩
  · rw [h]; rfl
  · intro hb; simp [cleaner_md_to_clean, hb]
  · intro hb; simp [cleaner_md_to_clean, hb]

/-- Concrete run of `cleaner_already_cleaned_detection`: a loaded
document without `@context`/`content` is passed to the cleaner whole. -/
theorem cleaner_already_cleaned_detection_witness :
    "stereoTop" ∉ SKIP_SENSORS
    ∧ (cenvOk.load_json_file "md.json").truthy = true
    ∧ ((clean_metadata cenvOk "stereoTop" "md.json" "ws" none).written.map Prod.snd).bind
        (fun d => d.lookup "content")
      = some (cenvOk.clean_metadata_lib
          (cleaner_md_to_clean (cenvOk.load_json_file "md.json")) "stereoTop") := by
  have h := cleaner_already_cleaned_detection cenvOk "stereoTop" "md.json" "ws" none
    (by decide) rfl
  exact ⟨by decide, rfl, h.1⟩

/-- Whatever the optional userid, the agent's `@type` is `cat:user`. -/
theorem cleaner_agent_type (userid : Option String) :
    (cleaner_agent userid).lookup "@type" = some (.str "cat:user") := by
  cases userid with
  | none => rfl
  | some u =>
    by_cases hu : (u != "") = true
    · simp [cleaner_agent, hu, JValue.lookup]
    · rw [Bool.not_eq_true] at hu
      simp [cleaner_agent, hu, JValue.lookup]

/-- Claim C5: for a loadable metadata file and a non-skipped sensor,
`clean_metadata` writes a document whose `@context` is the list of the
clowder context URL and the uamac `@vocab` object, whose `content` is
the library-cleaned metadata, and whose agent has `@type` `cat:user`;
it returns code 0 with the output file path under `file`. -/
theorem cleaner_emits_jsonld
    (env : CleanerEnv) (sensor filename working_space : String) (userid : Option String)
    (hskip : sensor ∉ SKIP_SENSORS)
    (hload : (env.load_json_file filename).truthy = true) :
    (clean_metadata env sensor filename working_space userid).written
      = some (cleaner_new_path filename working_space,
          cleaner_format_md
            (env.clean_metadata_lib (cleaner_md_to_clean (env.load_json_file filename)) sensor)
            (cleaner_agent userid))
    ∧ ((clean_metadata env sensor filename working_space userid).written.map Prod.snd).bind
        (fun d => d.lookup "@context")
      = some (.arr
          [ .str "https://clowder.ncsa.illinois.edu/contexts/metadata.jsonld"
          , .obj [("@vocab", .str "https://terraref.ncsa.illinois.edu/metadata/uamac#")] ])
    ∧ ((clean_metadata env sensor filename working_space userid).written.map Prod.snd).bind
        (fun d => (d.lookup "agent").bind (fun a => a.lookup "@type"))
      = some (.str "cat:user")
    ∧ resultCode (clean_metadata env sensor filename working_space userid).result = some 0
    ∧ (clean_metadata env sensor filename working_space userid).result.lookup "file"
      = some (.arr [.obj
          [ ("path", .str (cleaner_new_path filename working_space))
          , ("key", .str sensor) ]]) := by
  have h : (clean_metadata env sensor filename working_space userid).written
      = some (cleaner_new_path filename working_space,
          cleaner_format_md
            (env.clean_metadata_lib (cleaner_md_to_clean (env.load_json_file filename)) sensor)
            (cleaner_agent userid)) := by
    simp [clean_metadata, hskip, hload]
  have hr : (clean_metadata env sensor filename working_space userid).result
      = cleaner_success_result sensor (cleaner_new_path filename working_space) := by
    simp [clean_metadata, hskip, hload]
  refine ⟨h, ?_, ?_, ?_, ?_⟩
  · rw [h]; rfl
  · rw [h]
    show (cleaner_agent userid).lookup "@type" = some (.str "cat:user")
    exact cleaner_agent_type userid
  · rw [hr]; rfl
  · rw [hr]; rfl

/-- Concrete run of `cleaner_emits_jsonld`. -/
theorem cleaner_emits_jsonld_witness :
    (cenvOk.load_json_file "md.json").truthy = true
    ∧ ((clean_metadata cenvOk "stereoTop" "md.json" "ws" none).written.map Prod.snd).bind
        (fun d => d.lookup "@context")
      = some (.arr
          [ .str "https://clowder.ncsa.illinois.edu/contexts/metadata.jsonld"
          , .obj [("@vocab", .str "https://terraref.ncsa.illinois.edu/metadata/uamac#")] ])
    ∧ resultCode (clean_metadata cenvOk "stereoTop" "md.json" "ws" none).result = some 0 := by
  have h := cleaner_emits_jsonld cenvOk "stereoTop" "md.json" "ws" none (by decide) rfl
  exact ⟨rfl, h.2.1, h.2.2.2.1⟩

/-- `fetch_do_work` takes exactly one of three outcomes: the
sites-without-date error, a successful dispatch, or the
invalid-datatype error. -/
theorem fetch_do_work_cases (env : FetchEnv) (dt : String) (date : Option String) :
    ((fetch_do_work env dt date).ret_code = -1
      ∧ resultCode (fetch_do_work env dt date).result = some (-1)
      ∧ (fetch_do_work env dt date).result.lookup "error"
          = some (.str "A date must be specified with the datatype parameter of \"sites\""))
    ∨ ((fetch_do_work env dt date).ret_code = 0
      ∧ resultCode (fetch_do_work env dt date).result = none)
    ∨ ((fetch_do_work env dt date).ret_code = -2
      ∧ resultCode (fetch_do_work env dt date).result = some (-2)
      ∧ (fetch_do_work env dt date).result.lookup "error"
          = some (.str ("Invalid datatype parameter specifed: '" ++ dt
              ++ "'. Stopping processing"))) := by
  by_cases h1 : (dt = "sites" && !optStrTruthy date) = true
  · have e : (fetch_do_work env dt date).result
        = .obj
            [ ("error", .str "A date must be specified with the datatype parameter of \"sites\"")
            , ("code", .num (-1)) ] := by
      simp [fetch_do_work, h1]
    have er : (fetch_do_work env dt date).ret_code = -1 := by
      simp [fetch_do_work, h1]
    refine Or.inl ⟨er, ?_, ?_⟩
    · rw [e]; rfl
    · rw [e]; rfl
  · rw [Bool.not_eq_true] at h1
    by_cases h2 : dt ∈ fetch_type_map_keys
    · have e : (fetch_do_work env dt date).result = .obj [] := by
        simp [fetch_do_work, h1, h2]
      have er : (fetch_do_work env dt date).ret_code = 0 := by
        simp [fetch_do_work, h1, h2]
      refine Or.inr (Or.inl ⟨er, ?_⟩)
      rw [e]; rfl
    · have e : (fetch_do_work env dt date).result
          = .obj
              [ ("error", .str ("Invalid datatype parameter specifed: '" ++ dt
                  ++ "'. Stopping processing"))
              , ("code", .num (-2)) ] := by
        simp [fetch_do_work, h1, h2]
      have er : (fetch_do_work env dt date).ret_code = -2 := by
        simp [fetch_do_work, h1, h2]
      refine Or.inr (Or.inr ⟨er, ?_, ?_⟩)
      · rw [e]; rfl
      · rw [e]; rfl

/-- Claim C6: on every input, each of the three embedded procedures
returns an envelope whose code is either 0 or a negative integer with
an accompanying message (`error.message` in the converter and cleaner,
the `error` string in the fetch script); the embeddings are total
functions, so no handled failure raises past the top level. -/
theorem handled_failures_have_negative_code
    (env : Bin2TifEnv) (cenv : CleanerEnv) (fenv : FetchEnv)
    (f m w sensor mf cw datatype : String) (userid date : Option String) :
    (resultCode (bin2tif env f m w) = some 0
      ∨ ∃ n : Int, n < 0 ∧ resultCode (bin2tif env f m w) = some n
          ∧ hasErrorMessage (bin2tif env f m w) = true)
    ∧ (resultCode (clean_metadata cenv sensor mf cw userid).result = some 0
      ∨ ∃ n : Int, n < 0
          ∧ resultCode (clean_metadata cenv sensor mf cw userid).result = some n
          ∧ hasErrorMessage (clean_metadata cenv sensor mf cw userid).result = true)
    ∧ ((fetch_do_work fenv datatype date).ret_code = 0
      ∨ ∃ n : Int, n < 0 ∧ (fetch_do_work fenv datatype date).ret_code = n
          ∧ resultCode (fetch_do_work fenv datatype date).result = some n
          ∧ ∃ s, (fetch_do_work fenv datatype date).result.lookup "error"
              = some (.str s)) := by
  refine ⟨?_, ?_, ?_⟩
  · rcases bin2tif_envelope_wf env f m w with ⟨-, n, hn, h0 | ⟨hneg, hmsg⟩⟩
    · exact Or.inl (h0 ▸ hn)
    · exact Or.inr ⟨n, hneg, hn, hmsg⟩
  · rcases cleaner_envelope_wf cenv sensor mf cw userid with ⟨-, n, hn, h0 | ⟨hneg, hmsg⟩⟩
    · exact Or.inl (h0 ▸ hn)
    · exact Or.inr ⟨n, hneg, hn, hmsg⟩
  · rcases fetch_do_work_cases fenv datatype date with
      ⟨hr, hc, he⟩ | ⟨hr, _⟩ | ⟨hr, hc, he⟩
    · exact Or.inr ⟨-1, by norm_num, hr, hc, _, he⟩
    · exact Or.inl hr
    · exact Or.inr ⟨-2, by norm_num, hr, hc, _, he⟩

/-- Claim C7: both the converter and the cleaner save their envelope as
JSON at `<working_space>/output/result.json`, ensuring the `output`
directory exists, and every saved envelope is well formed: keys drawn
from `code`, `error`/`message`, `container`/`file`, an integer `code`
always present, 0 on success and a negative code accompanied by an
error message. -/
theorem result_saved_at_wellknown_path
    (env : Bin2TifEnv) (cenv : CleanerEnv)
    (f m ws sensor mf ws2 : String) (userid : Option String)
    (h1 : ws ≠ "") (h2 : endsWithSlash ws = false)
    (h3 : ws2 ≠ "") (h4 : endsWithSlash ws2 = false) :
    ((bin2tif_do_work env f m ws).saved.writePath = ws ++ "/output/result.json"
      ∧ (bin2tif_do_work env f m ws).saved.ensuredDir = ws ++ "/output"
      ∧ (bin2tif_do_work env f m ws).saved.written = bin2tif env f m ws
      ∧ envelopeWF (bin2tif_do_work env f m ws).saved.written)
    ∧ ((cleaner_do_work cenv sensor mf ws2 userid).saved.writePath
        = ws2 ++ "/output/result.json"
      ∧ (cleaner_do_work cenv sensor mf ws2 userid).saved.ensuredDir = ws2 ++ "/output"
      ∧ (cleaner_do_work cenv sensor mf ws2 userid).saved.written
        = (clean_metadata cenv sensor mf ws2 userid).result
      ∧ envelopeWF (cleaner_do_work cenv sensor mf ws2 userid).saved.written) := by
  obtain ⟨p1, d1, w1⟩ := save_result_paths ws (bin2tif env f m ws) h1 h2
  obtain ⟨p2, d2, w2⟩ :=
    save_result_paths ws2 (clean_metadata cenv sensor mf ws2 userid).result h3 h4
  exact ⟨⟨p1, d1, w1, bin2tif_envelope_wf env f m ws⟩,
         ⟨p2, d2, w2, cleaner_envelope_wf cenv sensor mf ws2 userid⟩⟩

/-- Concrete run of `result_saved_at_wellknown_path` in working space
`ws`. -/
theorem result_saved_at_wellknown_path_witness :
    (bin2tif_do_work envNoJson "f_left.bin" "md.json" "ws").saved.writePath
      = "ws/output/result.json"
    ∧ (cleaner_do_work cenvOk "stereoTop" "md.json" "ws" none).saved.writePath
      = "ws/output/result.json"
    ∧ (bin2tif_do_work envNoJson "f_left.bin" "md.json" "ws").saved.ensuredDir
      = "ws/output" := by
  have h := result_saved_at_wellknown_path envNoJson cenvOk
    "f_left.bin" "md.json" "ws" "stereoTop" "md.json" "ws" none
    (by decide) rfl (by decide) rfl
  exact ⟨h.1.1, h.2.1, h.1.2.1⟩

/-- Claim C1 counterexample: bin2tif.py's `do_work` returns `None` and
its `__main__` never passes the envelope code to `sys.exit`, so a run
whose saved envelope carries code -1 (here: unloadable metadata JSON)
still exits with process code 0 — the exit code does not mirror the
`code` field. -/
theorem exit_code_mirrors_envelope_counterexample :
    (bin2tif_do_work envNoJson "f_left.bin" "md.json" "ws").exit_code = 0
    ∧ resultCode (bin2tif_do_work envNoJson "f_left.bin" "md.json" "ws").saved.written
      = some (-1)
    ∧ (0 : Int) ≠ (-1 : Int) :=
  ⟨rfl, rfl, by decide⟩

/-- Claim C1 amended: only the fetch script's process exit code mirrors
its result's `code` field (the field's value when present, 0 when
absent — its success path sets no code); bin2tif.py and
metadata_cleaner.py always exit 0, whatever code their saved envelope
carries. -/
theorem exit_code_mirrors_envelope_amended
    (env : Bin2TifEnv) (cenv : CleanerEnv) (fenv : FetchEnv)
    (f m w sensor mf cw dt : String) (userid date : Option String) :
    (bin2tif_do_work env f m w).exit_code = 0
    ∧ (cleaner_do_work cenv sensor mf cw userid).exit_code = 0
    ∧ fetch_main_exit_code fenv dt date
      = (resultCode (fetch_do_work fenv dt date).result).getD 0 := by
  refine ⟨rfl, rfl, ?_⟩
  show (fetch_do_work fenv dt date).ret_code = _
  rcases fetch_do_work_cases fenv dt date with
    ⟨hr, hc, -⟩ | ⟨hr, hc⟩ | ⟨hr, hc, -⟩ <;> rw [hr, hc] <;> rfl

end AgpTest
